import Mathlib

/-!
Shallow embedding of the LeadVenture vertical-tabs widget
(`src/unnamed/part_000`, the TypeScript source of version 2.0.0, compiled to
`src/build/lv-vertical-tabs.js`).  The DOM elements the widget constructs and
mutates are modelled as records holding exactly the state the widget reads or
writes: class flags, inline display/visibility styles, `data-index` strings,
link targets and text.  Document-global effects (querySelector, appendChild,
console) are modelled explicitly where a claim depends on them.
-/

set_option maxHeartbeats 1000000
set_option maxRecDepth 8000

/-- `TabButtonConfig` from the source: `{ text: string; url: string }`. -/
structure TabButtonConfig where
  text : String
  url : String
deriving DecidableEq

/-- `TabConfig` from the source: title, text, image and an optional button. -/
structure TabConfig where
  title : String
  text : String
  image : String
  button : Option TabButtonConfig
deriving DecidableEq

/-- The fully defaulted settings record (`Required<VerticalTabsConfig>`).
`position` is a plain string: the TypeScript annotation `"left" | "right"` is
not enforced at runtime, and the code compares the value to `"left"` only. -/
structure Settings where
  container : String
  position : String
  tabs : List TabConfig
  debug : Bool
deriving DecidableEq

/-- The caller-supplied configuration; `position` and `debug` may be absent. -/
structure VerticalTabsConfig where
  container : String
  position : Option String
  tabs : List TabConfig
  debug : Option Bool
deriving DecidableEq

/-- The spread `{ position: "left", debug: false, ...config }`: absent fields
fall back to the defaults. -/
def resolveSettings (c : VerticalTabsConfig) : Settings :=
  { container := c.container
    position := c.position.getD "left"
    tabs := c.tabs
    debug := c.debug.getD false }

/-- State of one `li.vt__list-item` header element: its `data-index` string
(`none` when the attribute is absent), whether `classList` contains
`"active"`, and the title/text markup content. -/
structure TabItem where
  datasetIndex : Option String
  active : Bool
  title : String
  text : String
deriving DecidableEq

/-- State of one `img.vt__image` element: source and inline `display`. -/
structure ImageItem where
  src : String
  display : String
deriving DecidableEq

/-- State of one `a.vt__tab__button` element: target, text, inline
`visibility: hidden` flag and inline `display`. -/
structure ButtonItem where
  href : String
  textContent : String
  visibilityHidden : Bool
  display : String
deriving DecidableEq

/-- State of one `div.vt__debug` overlay: inline `display` and its markup. -/
structure DebugItem where
  display : String
  innerHTML : String
deriving DecidableEq

/-- The `TabElements` record returned by `createTabElements`.  The wrapper and
the relative order of the tabs block and the content block inside it are kept
as the `data-position` attribute string and a two-element child-order list. -/
structure TabElements where
  wrapperDataPosition : String
  childOrder : List String
  tabItems : List TabItem
  imageItems : List ImageItem
  buttonItems : List ButtonItem
  debugItems : List DebugItem
deriving DecidableEq

/-- Index-aware map starting at index `k`.  The source's `Array.reduce` /
`forEach` callbacks receive `(element, index)`; each per-tab sequence is built
by pushing exactly one element per input in order, which is this map at 0. -/
def mapWithIndex (f : Nat → α → β) : Nat → List α → List β
  | _, [] => []
  | k, a :: as => f k a :: mapWithIndex f (k + 1) as

theorem length_mapWithIndex (f : Nat → α → β) (k : Nat) (l : List α) :
    (mapWithIndex f k l).length = l.length := by
  induction l generalizing k with
  | nil => rfl
  | cons a as ih => simp [mapWithIndex, ih]

theorem getElem?_mapWithIndex (f : Nat → α → β) (k : Nat) (l : List α)
    (i : Nat) : (mapWithIndex f k l)[i]? = l[i]?.map (f (k + i)) := by
  induction l generalizing k i with
  | nil => simp [mapWithIndex]
  | cons a as ih =>
    cases i with
    | zero => simp [mapWithIndex]
    | succ j =>
      simp only [mapWithIndex, List.getElem?_cons_succ, ih]
      have : k + (j + 1) = k + 1 + j := by omega
      rw [this]

/-- `createTabItem`: a list item carrying `data-index = index.toString()`,
the title/text markup, and no `active` class yet. -/
def createTabItem (tab : TabConfig) (index : Nat) : TabItem :=
  { datasetIndex := some (natToString index)
    active := false
    title := tab.title
    text := tab.text }
where
  /-- Decimal rendering of a natural number; models JavaScript
  `Number.prototype.toString` on the natural indices the widget stores. -/
  natToString (n : Nat) : String := String.mk (natDigits n)
  /-- The decimal digit characters of `n`, most significant first. -/
  natDigits (n : Nat) : List Char :=
    if h : n < 10 then [digitChar n]
    else natDigits (n / 10) ++ [digitChar (n % 10)]
  termination_by n
  decreasing_by exact Nat.div_lt_self (by omega) (by omega)
  /-- The character for a single decimal digit. -/
  digitChar (d : Nat) : Char := Char.ofNat (48 + d)

/-- `createImage`: an image bound to `src`, initially `display: none`. -/
def createImage (src : String) : ImageItem :=
  { src := src, display := "none" }

/-- `createButton`: a link with the button's url/text, initially hidden. -/
def createButton (button : TabButtonConfig) : ButtonItem :=
  { href := button.url
    textContent := button.text
    visibilityHidden := false
    display := "none" }

/-- The placeholder link built when a tab has no usable button:
`href="#"`, text `"Placeholder"`, `visibility: hidden; display: inline-block`. -/
def placeholderButton : ButtonItem :=
  { href := "#"
    textContent := "Placeholder"
    visibilityHidden := true
    display := "inline-block" }

/-- The conditional `tab.button?.text && tab.button?.url ? createButton(...)
: <placeholder>` from the reduce body: a real button is built exactly when a
button record is present with truthy (non-empty) text and url. -/
def buildButton (tab : TabConfig) : ButtonItem :=
  match tab.button with
  | some b => if b.text ≠ "" ∧ b.url ≠ "" then createButton b else placeholderButton
  | none => placeholderButton

/-- `createDebugOverlay`: hidden overlay whose markup interpolates the index,
the image source and `button ? button.text : "None"`. -/
def createDebugOverlay (index : Nat) (image : String)
    (button : Option TabButtonConfig) : DebugItem :=
  { display := "none"
    innerHTML :=
      "<strong>Debug Info:</strong><br>Index: " ++ createTabItem.natToString index
        ++ "<br>Image: " ++ image ++ "<br>Button: "
        ++ (match button with | some b => b.text | none => "None") }

/-- `createTabElements`: builds the wrapper (tagged with the verbatim
`data-position`), appends tabs block and content block in the order decided by
`settings.position === "left"`, and accumulates the four per-tab sequences.
The source's single `reduce` pushes one tab item, one image, one button and
(in debug mode) one debug overlay per tab, in input order; each sequence is
therefore the index-aware map of its constructor over the tabs. -/
def createTabElements (settings : Settings) : TabElements :=
  { wrapperDataPosition := settings.position
    childOrder :=
      if settings.position = "left" then ["tabs", "content"]
      else ["content", "tabs"]
    tabItems := mapWithIndex (fun i tab => createTabItem tab i) 0 settings.tabs
    imageItems := mapWithIndex (fun _ tab => createImage tab.image) 0 settings.tabs
    buttonItems := mapWithIndex (fun _ tab => buildButton tab) 0 settings.tabs
    debugItems :=
      if settings.debug then
        mapWithIndex (fun i tab => createDebugOverlay i tab.image tab.button) 0
          settings.tabs
      else [] }

/-- `selectTab(index, elements)`: toggles `active` on header `i` to
`i === index`, image `i` to `display: block/none`, button `i` to
`display: inline-block/none`, and debug overlay `i` to `display: block/none`.
The `index` compared against the position counter is an arbitrary integer. -/
def selectTab (index : Int) (e : TabElements) : TabElements :=
  { e with
    tabItems :=
      mapWithIndex (fun i t => { t with active := (i : Int) == index }) 0 e.tabItems
    imageItems :=
      mapWithIndex
        (fun i im => { im with display := if (i : Int) == index then "block" else "none" })
        0 e.imageItems
    buttonItems :=
      mapWithIndex
        (fun i b =>
          { b with display := if (i : Int) == index then "inline-block" else "none" })
        0 e.buttonItems
    debugItems :=
      mapWithIndex
        (fun i d => { d with display := if (i : Int) == index then "block" else "none" })
        0 e.debugItems }

/-- The decimal value of a digit character, `none` for non-digits. -/
def digitVal? (c : Char) : Option Nat :=
  if '0' ≤ c ∧ c ≤ '9' then some (c.toNat - 48) else none

/-- Folds decimal digits left to right; fails on any non-digit character. -/
def parseDigitsAux (acc : Nat) : List Char → Option Nat
  | [] => some acc
  | c :: cs =>
    match digitVal? c with
    | some d => parseDigitsAux (acc * 10 + d) cs
    | none => none

/-- Parses a non-empty all-digit character list; `none` otherwise. -/
def parseDigits (l : List Char) : Option Nat :=
  match l with
  | [] => none
  | _ => parseDigitsAux 0 l

/-- Models the `Number(indexStr)` conversion followed by the `isNaN` gate, on
the integer-literal strings relevant to the widget (an optional leading `-`
followed by decimal digits); any other string yields `none` (NaN). -/
def jsNumber (s : String) : Option Int :=
  match s.data with
  | [] => none
  | c :: cs =>
    if c = '-' then (parseDigits cs).map (fun v => -(v : Int))
    else (parseDigits (c :: cs)).map (fun v => (v : Int))

theorem digitVal?_digitChar (d : Nat) (h : d < 10) :
    digitVal? (createTabItem.digitChar d) = some d := by
  interval_cases d <;> decide

theorem digitChar_ne_dash (d : Nat) (h : d < 10) :
    createTabItem.digitChar d ≠ '-' := by
  interval_cases d <;> decide

theorem parseDigitsAux_append (acc : Nat) (l m : List Char) :
    parseDigitsAux acc (l ++ m) =
      match parseDigitsAux acc l with
      | some v => parseDigitsAux v m
      | none => none := by
  induction l generalizing acc with
  | nil => rfl
  | cons c cs ih =>
    simp only [List.cons_append, parseDigitsAux]
    cases digitVal? c with
    | none => rfl
    | some d => exact ih (acc * 10 + d)

theorem parseDigitsAux_natDigits (n : Nat) :
    ∀ acc, parseDigitsAux acc (createTabItem.natDigits n) =
      some (acc * 10 ^ (createTabItem.natDigits n).length + n) := by
  induction n using Nat.strong_induction_on with
  | _ n ih =>
    intro acc
    rw [createTabItem.natDigits]
    by_cases h : n < 10
    · simp only [h, dite_true]
      simp [parseDigitsAux, digitVal?_digitChar n h]
    · simp only [h, dite_false]
      have hdiv : n / 10 < n := Nat.div_lt_self (by omega) (by omega)
      rw [parseDigitsAux_append]
      rw [ih (n / 10) hdiv acc]
      simp only [parseDigitsAux, digitVal?_digitChar (n % 10) (Nat.mod_lt n (by omega))]
      have hlen : (createTabItem.natDigits (n / 10) ++
          [createTabItem.digitChar (n % 10)]).length =
          (createTabItem.natDigits (n / 10)).length + 1 := by simp
      rw [hlen, pow_succ, ← Nat.mul_assoc]
      congr 1
      have hA : ∀ A : Nat, (A + n / 10) * 10 + n % 10 = A * 10 + n := by
        intro A; omega
      exact hA (acc * 10 ^ (createTabItem.natDigits (n / 10)).length)

theorem natDigits_head_digit (n : Nat) :
    ∃ d ds, createTabItem.natDigits n = createTabItem.digitChar d :: ds ∧ d < 10 := by
  induction n using Nat.strong_induction_on with
  | _ n ih =>
    rw [createTabItem.natDigits]
    by_cases h : n < 10
    · exact ⟨n, [], by simp [h], h⟩
    · have hdiv : n / 10 < n := Nat.div_lt_self (by omega) (by omega)
      obtain ⟨d, ds, hd, hlt⟩ := ih (n / 10) hdiv
      exact ⟨d, ds ++ [createTabItem.digitChar (n % 10)], by simp [h, hd], hlt⟩

theorem parseDigits_natDigits (n : Nat) :
    parseDigits (createTabItem.natDigits n) = some n := by
  obtain ⟨d, ds, hd, _⟩ := natDigits_head_digit n
  have : parseDigits (createTabItem.natDigits n) =
      parseDigitsAux 0 (createTabItem.natDigits n) := by
    rw [hd]; rfl
  rw [this, parseDigitsAux_natDigits n 0]
  simp

/-- The widget's stored `data-index` strings round-trip through the number
parse in the click handler. -/
theorem jsNumber_natToString (n : Nat) :
    jsNumber (createTabItem.natToString n) = some (n : Int) := by
  obtain ⟨d, ds, hd, hlt⟩ := natDigits_head_digit n
  show jsNumber (String.mk (createTabItem.natDigits n)) = some (n : Int)
  rw [show (String.mk (createTabItem.natDigits n)) =
      String.mk (createTabItem.digitChar d :: ds) from by rw [hd]]
  simp only [jsNumber, digitChar_ne_dash d hlt, if_false]
  rw [← hd, parseDigits_natDigits n]
  rfl

theorem natToString_ne_empty (n : Nat) : createTabItem.natToString n ≠ "" := by
  obtain ⟨d, ds, hd, _⟩ := natDigits_head_digit n
  simp only [createTabItem.natToString, hd]
  intro hcontra
  have : (createTabItem.digitChar d :: ds) = ([] : List Char) :=
    congrArg String.data hcontra
  exact List.noConfusion this

/-- The delegated click listener attached to the tab list (version 2.0.0
source).  `tabEl` is the result of `event.target.closest(".vt__list-item")`:
the nearest ancestor-or-self header of the click target, `none` when there is
no such header.  The second component is the console output of the handler:
every path of the 2.0.0 listener is silent. -/
def onTabClick (tabEl : Option TabItem) (e : TabElements) :
    TabElements × List String :=
  match tabEl with
  | none => (e, [])
  | some t =>
    match t.datasetIndex with
    | none => (e, [])
    | some str =>
      if str = "" then (e, [])
      else
        match jsNumber str with
        | none => (e, [])
        | some index => (selectTab index e, [])

/-- `createVerticalTabs`: resolves the settings, aborts with a console warning
when the container locator matches nothing, otherwise builds the elements,
attaches the delegated listener (modelled by `onTabClick`; registration itself
changes no widget state) and selects tab 0.  The first component is the final
widget state appended into the container. -/
def createVerticalTabs (containerFound : Bool) (config : VerticalTabsConfig) :
    Option TabElements × List String :=
  let settings := resolveSettings config
  if containerFound then
    let elements := createTabElements settings
    (some (selectTab 0 elements), [])
  else
    (none, ["Container " ++ settings.container ++ " not found"])

/-- `tabs.findIndex((tab) => tab.classList.contains("active"))`: index of the
first active header, `-1` when none is active. -/
def jsFindActive (tabs : List TabItem) : Int :=
  match tabs.findIdx? (fun t => t.active) with
  | some k => (k : Int)
  | none => -1

/-- One auto-cycle tick (`cycleTabs`): scan for the active header, compute
`(activeIndex + 1) % tabs.length` and invoke `.click()` on that header.  The
dispatched click's target is the header itself, so the delegated listener's
`closest` lookup yields exactly that header: the tick goes through
`onTabClick`.  Since `activeIndex ≥ -1`, the JavaScript truncating `%` agrees
with `Int.emod` here and the index is in range whenever the list is non-empty
(the only situation in which `autoCycleTabs` schedules ticks); the `none`
branch is unreachable then. -/
def cycleTabs (e : TabElements) : TabElements :=
  let activeIndex := jsFindActive e.tabItems
  let nextIndex := ((activeIndex + 1) % ((e.tabItems.length : Int))).toNat
  match e.tabItems[nextIndex]? with
  | some tabEl => (onTabClick (some tabEl) e).1
  | none => e

/-- The events acting on one auto-cycle driver's timer state: the container's
`mouseenter` and `mouseleave` listeners and the returned cleanup function. -/
inductive CycleEvent where
  | enter : CycleEvent
  | leave : CycleEvent
  | cancel : CycleEvent
deriving DecidableEq

/-- Timer state of one `autoCycleTabs` driver: the `intervalId` variable
(`none` models `undefined`), the repeating timers currently scheduled in the
host (as `(id, intervalMillis)` pairs), a fresh-id allocator (the host hands
out distinct positive ids), and the driver's captured `interval` argument. -/
structure CycleState where
  intervalId : Option Nat
  timers : List (Nat × Nat)
  nextId : Nat
  intervalMs : Nat
deriving DecidableEq

/-- `window.clearInterval(id)`: removes the timer with that id, if any;
clearing `undefined` is a no-op. -/
def clearIntervalTimers (id : Option Nat) (timers : List (Nat × Nat)) :
    List (Nat × Nat) :=
  match id with
  | some i => timers.filter (fun t => t.1 ≠ i)
  | none => timers

/-- State right after `autoCycleTabs` starts: one repeating timer scheduled at
the requested interval and its id stored in `intervalId`. -/
def autoCycleStart (interval : Nat) : CycleState :=
  { intervalId := some 1, timers := [(1, interval)], nextId := 2
    intervalMs := interval }

/-- The driver's event handlers: `mouseenter` clears the stored timer and sets
`intervalId = undefined`; `mouseleave` schedules a fresh timer at the captured
interval only when `!intervalId`; the returned cleanup function clears the
stored timer when `intervalId` is set but leaves `intervalId` itself
untouched. -/
def stepEvent (s : CycleState) : CycleEvent → CycleState
  | .enter =>
    { s with
      timers := clearIntervalTimers s.intervalId s.timers
      intervalId := none }
  | .leave =>
    if s.intervalId = none then
      { s with
        intervalId := some s.nextId
        timers := s.timers ++ [(s.nextId, s.intervalMs)]
        nextId := s.nextId + 1 }
    else s
  | .cancel =>
    { s with timers := clearIntervalTimers s.intervalId s.timers }

theorem mapWithIndex_mapWithIndex (f : Nat → β → γ) (g : Nat → α → β)
    (k : Nat) (l : List α) :
    mapWithIndex f k (mapWithIndex g k l) =
      mapWithIndex (fun i x => f i (g i x)) k l := by
  induction l generalizing k with
  | nil => rfl
  | cons a as ih => simp [mapWithIndex, ih]

theorem tabItems_createTabElements (s : Settings) (i : Nat) :
    (createTabElements s).tabItems[i]? =
      s.tabs[i]?.map (fun tab => createTabItem tab i) := by
  simp [createTabElements, getElem?_mapWithIndex]

theorem imageItems_createTabElements (s : Settings) (i : Nat) :
    (createTabElements s).imageItems[i]? =
      s.tabs[i]?.map (fun tab => createImage tab.image) := by
  simp [createTabElements, getElem?_mapWithIndex]

theorem buttonItems_createTabElements (s : Settings) (i : Nat) :
    (createTabElements s).buttonItems[i]? = s.tabs[i]?.map buildButton := by
  simp [createTabElements, getElem?_mapWithIndex]

theorem debugItems_createTabElements (s : Settings) (hdbg : s.debug = true)
    (i : Nat) :
    (createTabElements s).debugItems[i]? =
      s.tabs[i]?.map (fun tab => createDebugOverlay i tab.image tab.button) := by
  simp [createTabElements, hdbg, getElem?_mapWithIndex]

theorem length_tabItems_createTabElements (s : Settings) :
    (createTabElements s).tabItems.length = s.tabs.length := by
  simp [createTabElements, length_mapWithIndex]

theorem length_debugItems_createTabElements (s : Settings) :
    (createTabElements s).debugItems.length =
      if s.debug then s.tabs.length else 0 := by
  by_cases h : s.debug <;> simp [createTabElements, h, length_mapWithIndex]

theorem selectTab_tabItems_getElem? (j : Int) (e : TabElements) (i : Nat) :
    (selectTab j e).tabItems[i]? =
      e.tabItems[i]?.map (fun t => { t with active := (i : Int) == j }) := by
  simp [selectTab, getElem?_mapWithIndex]

theorem selectTab_imageItems_getElem? (j : Int) (e : TabElements) (i : Nat) :
    (selectTab j e).imageItems[i]? =
      e.imageItems[i]?.map
        (fun im => { im with display := if (i : Int) == j then "block" else "none" }) := by
  simp [selectTab, getElem?_mapWithIndex]

theorem selectTab_buttonItems_getElem? (j : Int) (e : TabElements) (i : Nat) :
    (selectTab j e).buttonItems[i]? =
      e.buttonItems[i]?.map
        (fun b =>
          { b with display := if (i : Int) == j then "inline-block" else "none" }) := by
  simp [selectTab, getElem?_mapWithIndex]

theorem selectTab_debugItems_getElem? (j : Int) (e : TabElements) (i : Nat) :
    (selectTab j e).debugItems[i]? =
      e.debugItems[i]?.map
        (fun d => { d with display := if (i : Int) == j then "block" else "none" }) := by
  simp [selectTab, getElem?_mapWithIndex]

theorem selectTab_selectTab (j i : Int) (e : TabElements) :
    selectTab j (selectTab i e) = selectTab j e := by
  simp only [selectTab, mapWithIndex_mapWithIndex]

theorem length_tabItems_selectTab (j : Int) (e : TabElements) :
    (selectTab j e).tabItems.length = e.tabItems.length := by
  simp [selectTab, length_mapWithIndex]

theorem findIdx?_selectTab_aux (j : Int) (l : List TabItem) :
    ∀ k i0, List.findIdx? (fun t => t.active)
      (mapWithIndex (fun i t => { t with active := (i : Int) == j }) k l) i0 =
      if (k : Int) ≤ j ∧ j < (k : Int) + l.length then some (j.toNat - k + i0)
      else none := by
  induction l with
  | nil =>
    intro k i0
    simp only [mapWithIndex, List.findIdx?_nil, List.length_nil, Nat.cast_zero,
      add_zero]
    rw [eq_comm, if_neg]
    omega
  | cons a as ih =>
    intro k i0
    simp only [mapWithIndex, List.findIdx?_cons, List.length_cons]
    by_cases hkj : (k : Int) = j
    · rw [if_pos (by simp [hkj]), if_pos (by push_cast; omega)]
      congr 1
      omega
    · rw [if_neg (by simp [hkj]), ih (k + 1) (i0 + 1)]
      push_cast
      by_cases hc : (k : Int) + 1 ≤ j ∧ j < (k : Int) + 1 + as.length
      · rw [if_pos hc, if_pos (by omega)]
        congr 1
        omega
      · rw [if_neg hc, if_neg (by omega)]

theorem jsFindActive_selectTab (j : Int) (e : TabElements) :
    jsFindActive (selectTab j e).tabItems =
      if 0 ≤ j ∧ j < (e.tabItems.length : Int) then j else -1 := by
  have h := findIdx?_selectTab_aux j e.tabItems 0 0
  simp only [Nat.cast_zero, zero_add, Nat.sub_zero, Nat.add_zero] at h
  show jsFindActive
      (mapWithIndex (fun i t => { t with active := (i : Int) == j }) 0 e.tabItems) = _
  unfold jsFindActive
  rw [h]
  by_cases hc : 0 ≤ j ∧ j < (e.tabItems.length : Int)
  · rw [if_pos hc, if_pos hc]
    simp [Int.toNat_of_nonneg hc.1]
  · rw [if_neg hc, if_neg hc]

theorem findIdx?_fresh_aux (l : List TabConfig) :
    ∀ k i0, List.findIdx? (fun t => t.active)
      (mapWithIndex (fun i tab => createTabItem tab i) k l) i0 = none := by
  induction l with
  | nil => intro k i0; simp [mapWithIndex]
  | cons a as ih =>
    intro k i0
    simp only [mapWithIndex, List.findIdx?_cons]
    rw [if_neg (by simp [createTabItem])]
    exact ih (k + 1) (i0 + 1)

theorem jsFindActive_fresh (s : Settings) :
    jsFindActive (createTabElements s).tabItems = -1 := by
  show jsFindActive
      (mapWithIndex (fun i tab => createTabItem tab i) 0 s.tabs) = -1
  unfold jsFindActive
  rw [findIdx?_fresh_aux s.tabs 0 0]

theorem onTabClick_natIndex (e : TabElements) (t : TabItem) (n : Nat)
    (ht : t.datasetIndex = some (createTabItem.natToString n)) :
    onTabClick (some t) e = (selectTab (n : Int) e, []) := by
  simp [onTabClick, ht, natToString_ne_empty n, jsNumber_natToString n]

theorem toNat_intCast_mod (a b : Nat) :
    (((a : Int)) % ((b : Int))).toNat = a % b := by
  rw [← Int.natCast_mod]
  exact Int.toNat_natCast _

theorem cycleTabs_selectTab (s : Settings) (k : Nat) (hk : k < s.tabs.length) :
    cycleTabs (selectTab (k : Int) (createTabElements s)) =
      selectTab (((k + 1) % s.tabs.length : Nat) : Int) (createTabElements s) := by
  have hpos : 0 < s.tabs.length := by omega
  have hlen : (selectTab (k : Int) (createTabElements s)).tabItems.length =
      s.tabs.length := by
    rw [length_tabItems_selectTab, length_tabItems_createTabElements]
  have hfind : jsFindActive (selectTab (k : Int) (createTabElements s)).tabItems =
      (k : Int) := by
    rw [jsFindActive_selectTab, if_pos]
    refine ⟨by omega, ?_⟩
    rw [length_tabItems_createTabElements]
    omega
  have hmod : (k + 1) % s.tabs.length < s.tabs.length := Nat.mod_lt _ hpos
  have hnext : (((k : Int) + 1) %
      ((selectTab (k : Int) (createTabElements s)).tabItems.length : Int)).toNat =
      (k + 1) % s.tabs.length := by
    rw [hlen]
    rw [show ((k : Int) + 1) = (((k + 1 : Nat)) : Int) by push_cast; ring]
    exact toNat_intCast_mod _ _
  have htab : s.tabs[(k + 1) % s.tabs.length]? = some (s.tabs.get ⟨(k + 1) % s.tabs.length, hmod⟩) :=
    List.getElem?_eq_getElem hmod
  have hget : (selectTab (k : Int) (createTabElements s)).tabItems[(k + 1) % s.tabs.length]? =
      some { createTabItem (s.tabs.get ⟨(k + 1) % s.tabs.length, hmod⟩) ((k + 1) % s.tabs.length) with
              active := (((k + 1) % s.tabs.length : Nat) : Int) == (k : Int) } := by
    rw [selectTab_tabItems_getElem?, tabItems_createTabElements, htab]
    rfl
  simp only [cycleTabs]
  rw [hfind, hnext, hget]
  simp only []
  rw [onTabClick_natIndex _ _ ((k + 1) % s.tabs.length) rfl]
  exact selectTab_selectTab _ _ _

theorem cycleTabs_iterate (s : Settings) (k : Nat) (hk : k < s.tabs.length) :
    ∀ m : Nat, cycleTabs^[m] (selectTab (k : Int) (createTabElements s)) =
      selectTab (((k + m) % s.tabs.length : Nat) : Int) (createTabElements s) := by
  intro m
  induction m generalizing k with
  | zero =>
    simp only [Function.iterate_zero, id_eq, Nat.add_zero]
    rw [Nat.mod_eq_of_lt hk]
  | succ m ih =>
    rw [Function.iterate_succ_apply, cycleTabs_selectTab s k hk]
    have hmod : (k + 1) % s.tabs.length < s.tabs.length :=
      Nat.mod_lt _ (by omega)
    rw [ih ((k + 1) % s.tabs.length) hmod]
    congr 2
    rw [Nat.mod_add_mod]
    congr 1
    omega

theorem natToString_zero : createTabItem.natToString 0 = "0" := by
  rw [createTabItem.natToString, createTabItem.natDigits]
  decide

/-- C2: for every configuration, the built structure has
`tabItems.length = imageItems.length = buttonItems.length = tabs.length`
(buttons are populated for every tab), and `debugItems.length` is `0` with
debug disabled and `tabs.length` with debug enabled, for every tab count. -/
theorem claim2_sequence_lengths (s : Settings) :
    (createTabElements s).tabItems.length = s.tabs.length ∧
    (createTabElements s).imageItems.length = s.tabs.length ∧
    (createTabElements s).buttonItems.length = s.tabs.length ∧
    (createTabElements s).debugItems.length =
      (if s.debug then s.tabs.length else 0) := by
  refine ⟨?_, ?_, ?_, ?_⟩
  · simp [createTabElements, length_mapWithIndex]
  · simp [createTabElements, length_mapWithIndex]
  · simp [createTabElements, length_mapWithIndex]
  · by_cases h : s.debug <;> simp [createTabElements, h, length_mapWithIndex]

/-- C10: the wrapper records the supplied position string verbatim in its
`data-position` attribute, unvalidated; the exact string `"left"` puts the
tabs block before the content block, and any other string — not only
`"right"` — puts the content block before the tabs block. -/
theorem claim10_position_ordering (s : Settings) :
    (createTabElements s).wrapperDataPosition = s.position ∧
    (s.position = "left" →
      (createTabElements s).childOrder = ["tabs", "content"]) ∧
    (s.position ≠ "left" →
      (createTabElements s).childOrder = ["content", "tabs"]) := by
  refine ⟨rfl, fun h => ?_, fun h => ?_⟩ <;> simp [createTabElements, h]

/-- Witness for C10 at the arbitrary invalid position string `"banana"`. -/
theorem claim10_witness :
    (createTabElements
        { container := "#x", position := "banana", tabs := [], debug := false }).wrapperDataPosition = "banana" ∧
    (createTabElements
        { container := "#x", position := "banana", tabs := [], debug := false }).childOrder = ["content", "tabs"] :=
  ⟨(claim10_position_ordering
      { container := "#x", position := "banana", tabs := [], debug := false }).1,
   (claim10_position_ordering
      { container := "#x", position := "banana", tabs := [], debug := false }).2.2
      (by decide)⟩

/-- C4: a tab whose button record has non-empty text and url gets a
visible-capable link with that label and target; every other tab gets the
placeholder link — fixed text `"Placeholder"`, permanently
`visibility: hidden` (selection never changes that flag), and the inert
no-destination target `href="#"` (the spec's "null target"). -/
theorem claim4_button_construction (s : Settings) (i : Nat) (tab : TabConfig)
    (htab : s.tabs[i]? = some tab) :
    (∀ bc, tab.button = some bc → bc.text ≠ "" → bc.url ≠ "" →
      (createTabElements s).buttonItems[i]? =
        some { href := bc.url, textContent := bc.text
               visibilityHidden := false, display := "none" }) ∧
    ((tab.button = none ∨
        ∃ bc, tab.button = some bc ∧ (bc.text = "" ∨ bc.url = "")) →
      (createTabElements s).buttonItems[i]? = some placeholderButton) ∧
    placeholderButton.textContent = "Placeholder" ∧
    placeholderButton.visibilityHidden = true ∧
    placeholderButton.href = "#" ∧
    (∀ j : Int,
      (selectTab j (createTabElements s)).buttonItems[i]?.map
          (fun b => b.visibilityHidden) =
        (createTabElements s).buttonItems[i]?.map (fun b => b.visibilityHidden)) := by
  refine ⟨?_, ?_, rfl, rfl, rfl, ?_⟩
  · intro bc hbc htext hurl
    rw [buttonItems_createTabElements, htab]
    simp [buildButton, hbc, htext, hurl, createButton]
  · intro hcase
    rw [buttonItems_createTabElements, htab]
    rcases hcase with hnone | ⟨bc, hbc, hempty⟩
    · simp [buildButton, hnone]
    · rcases hempty with he | he <;> simp [buildButton, hbc, he]
  · intro j
    rw [selectTab_buttonItems_getElem?]
    cases (createTabElements s).buttonItems[i]? <;> rfl

/-- A two-tab configuration: a usable button and a present-but-unusable one. -/
def sampleButtonSettings : Settings :=
  { container := "#x", position := "left"
    tabs := [{ title := "A", text := "a", image := "a.png"
               button := some { text := "Buy", url := "https://e.com" } },
             { title := "B", text := "b", image := "b.png"
               button := some { text := "Go", url := "" } }]
    debug := false }

/-- Witness for C4: a usable button yields the real link, a present but
empty-url button yields the placeholder. -/
theorem claim4_witness :
    (createTabElements sampleButtonSettings).buttonItems[0]? =
      some { href := "https://e.com", textContent := "Buy"
             visibilityHidden := false, display := "none" } ∧
    (createTabElements sampleButtonSettings).buttonItems[1]? =
      some placeholderButton :=
  ⟨(claim4_button_construction sampleButtonSettings 0
      { title := "A", text := "a", image := "a.png"
        button := some { text := "Buy", url := "https://e.com" } } rfl).1
      { text := "Buy", url := "https://e.com" } rfl (by decide) (by decide),
   (claim4_button_construction sampleButtonSettings 1
      { title := "B", text := "b", image := "b.png"
        button := some { text := "Go", url := "" } } rfl).2.1
      (Or.inr ⟨{ text := "Go", url := "" }, rfl, Or.inr rfl⟩)⟩

/-- C5 counterexample: the tab below has no usable button (its url is empty,
so the placeholder is built), yet its debug panel shows the label `"Go"` and
contains the sentinel `"None"` nowhere — the sentinel appears only when the
button record is entirely absent, not whenever the button is unusable. -/
theorem claim5_counterexample :
    buildButton { title := "T", text := "X", image := "i.png"
                  button := some { text := "Go", url := "" } } =
      placeholderButton ∧
    (createDebugOverlay 0 "i.png" (some { text := "Go", url := "" })).innerHTML =
      "<strong>Debug Info:</strong><br>Index: 0<br>Image: i.png<br>Button: Go" ∧
    ¬ ("None".data <:+:
        (createDebugOverlay 0 "i.png" (some { text := "Go", url := "" })).innerHTML.data) := by
  have hhtml : (createDebugOverlay 0 "i.png"
      (some { text := "Go", url := "" })).innerHTML =
      "<strong>Debug Info:</strong><br>Index: 0<br>Image: i.png<br>Button: Go" := by
    simp only [createDebugOverlay, natToString_zero]
    decide
  refine ⟨by decide, hhtml, ?_⟩
  rw [hhtml]
  decide

/-- C5 amended: under debug mode, panel `i` holds the tab's index, its image
source, and the label of the tab's button record when one is present; the
sentinel `"None"` appears exactly when the record is absent — a present
record's label is interpolated verbatim even when the button is unusable. -/
theorem claim5_amended_debug_panels (s : Settings) (hdbg : s.debug = true)
    (i : Nat) (tab : TabConfig) (htab : s.tabs[i]? = some tab) :
    (createTabElements s).debugItems[i]? =
      some { display := "none"
             innerHTML :=
               "<strong>Debug Info:</strong><br>Index: "
                 ++ createTabItem.natToString i ++ "<br>Image: " ++ tab.image
                 ++ "<br>Button: "
                 ++ (match tab.button with | some b => b.text | none => "None") } := by
  rw [debugItems_createTabElements s hdbg, htab]
  rfl

/-- Witness for the amended C5: a buttonless tab's panel shows `"None"`. -/
theorem claim5_witness :
    (createTabElements
        { container := "#x", position := "left"
          tabs := [{ title := "T", text := "X", image := "i.png", button := none }]
          debug := true }).debugItems[0]? =
      some { display := "none"
             innerHTML :=
               "<strong>Debug Info:</strong><br>Index: "
                 ++ createTabItem.natToString 0 ++ "<br>Image: " ++ "i.png"
                 ++ "<br>Button: " ++ "None" } :=
  claim5_amended_debug_panels _ rfl 0
    { title := "T", text := "X", image := "i.png", button := none } rfl

theorem selectTab_state (s : Settings) (index : Int) (i : Nat)
    (hi : i < s.tabs.length) :
    (∃ t, (selectTab index (createTabElements s)).tabItems[i]? = some t ∧
        (t.active = true ↔ (i : Int) = index)) ∧
    (∃ im, (selectTab index (createTabElements s)).imageItems[i]? = some im ∧
        im.display = if (i : Int) = index then "block" else "none") ∧
    (∃ b, (selectTab index (createTabElements s)).buttonItems[i]? = some b ∧
        b.display = if (i : Int) = index then "inline-block" else "none") ∧
    (s.debug = true →
      ∃ d, (selectTab index (createTabElements s)).debugItems[i]? = some d ∧
        d.display = if (i : Int) = index then "block" else "none") := by
  have htab : s.tabs[i]? = some (s.tabs.get ⟨i, hi⟩) := List.getElem?_eq_getElem hi
  refine ⟨?_, ?_, ?_, fun hdbg => ?_⟩
  · rw [selectTab_tabItems_getElem?, tabItems_createTabElements, htab]
    refine ⟨_, rfl, ?_⟩
    show (((i : Int) == index) = true) ↔ (i : Int) = index
    exact beq_iff_eq
  · rw [selectTab_imageItems_getElem?, imageItems_createTabElements, htab]
    refine ⟨_, rfl, ?_⟩
    show (if (i : Int) == index then "block" else "none") = _
    by_cases h : (i : Int) = index <;> simp [h]
  · rw [selectTab_buttonItems_getElem?, buttonItems_createTabElements, htab]
    refine ⟨_, rfl, ?_⟩
    show (if (i : Int) == index then "inline-block" else "none") = _
    by_cases h : (i : Int) = index <;> simp [h]
  · rw [selectTab_debugItems_getElem?, debugItems_createTabElements s hdbg, htab]
    refine ⟨_, rfl, ?_⟩
    show (if (i : Int) == index then "block" else "none") = _
    by_cases h : (i : Int) = index <;> simp [h]

/-- C1: after `selectTab(index, elements)` on a widget built from the
configuration, each position `i` of the parallel sequences satisfies: header
`i` is active iff `i = index`, image `i` has display `"block"` iff `i = index`
(else `"none"`), button `i` has display `"inline-block"` iff `i = index` (else
`"none"`), and — when debug panels exist — panel `i` has display `"block"` iff
`i = index`; `index` may be any integer, so an out-of-range `index` leaves
every header inactive and every image, button and panel hidden. -/
theorem claim1_selectTab_toggles (s : Settings) (index : Int) (i : Nat)
    (hi : i < s.tabs.length) :
    (∃ t, (selectTab index (createTabElements s)).tabItems[i]? = some t ∧
        (t.active = true ↔ (i : Int) = index)) ∧
    (∃ im, (selectTab index (createTabElements s)).imageItems[i]? = some im ∧
        im.display = if (i : Int) = index then "block" else "none") ∧
    (∃ b, (selectTab index (createTabElements s)).buttonItems[i]? = some b ∧
        b.display = if (i : Int) = index then "inline-block" else "none") ∧
    (s.debug = true →
      ∃ d, (selectTab index (createTabElements s)).debugItems[i]? = some d ∧
        d.display = if (i : Int) = index then "block" else "none") :=
  selectTab_state s index i hi

/-- A one-tab debug-enabled configuration used by several witnesses. -/
def sampleDebugSettings : Settings :=
  { container := "#x", position := "left"
    tabs := [{ title := "T", text := "X", image := "i.png", button := none }]
    debug := true }

/-- Witness for C1 at an out-of-range index: tab 0 of a one-tab widget is
inactive and hidden after `selectTab 5`. -/
theorem claim1_witness :
    (∃ t, (selectTab 5 (createTabElements sampleDebugSettings)).tabItems[0]? =
        some t ∧ (t.active = true ↔ ((0 : Nat) : Int) = 5)) ∧
    (∃ im, (selectTab 5 (createTabElements sampleDebugSettings)).imageItems[0]? =
        some im ∧
        im.display = if ((0 : Nat) : Int) = 5 then "block" else "none") ∧
    (∃ b, (selectTab 5 (createTabElements sampleDebugSettings)).buttonItems[0]? =
        some b ∧
        b.display = if ((0 : Nat) : Int) = 5 then "inline-block" else "none") ∧
    (sampleDebugSettings.debug = true →
      ∃ d, (selectTab 5 (createTabElements sampleDebugSettings)).debugItems[0]? =
        some d ∧
        d.display = if ((0 : Nat) : Int) = 5 then "block" else "none") :=
  claim1_selectTab_toggles sampleDebugSettings 5 0 (by decide)

theorem selectTab_empty_noop (s : Settings) (h : s.tabs.length = 0) :
    selectTab 0 (createTabElements s) = createTabElements s := by
  have hnil : s.tabs = [] := List.length_eq_zero.mp h
  cases hd : s.debug <;>
    simp [createTabElements, selectTab, hnil, hd, mapWithIndex]

/-- C8: when the container locator resolves, `createVerticalTabs` ends by
invoking `selectTab 0` on the freshly built elements, unconditionally and with
no console output; consequently for a non-empty tab list position 0 of every
aligned sequence (headers, images, buttons, and debug panels when enabled) is
the unique active/visible one, and for an empty tab list the initial selection
changes nothing. -/
theorem claim8_initial_selection (config : VerticalTabsConfig) :
    createVerticalTabs true config =
      (some (selectTab 0 (createTabElements (resolveSettings config))), []) ∧
    (∀ i, i < (resolveSettings config).tabs.length →
      ((∃ t, (selectTab 0
            (createTabElements (resolveSettings config))).tabItems[i]? = some t ∧
          (t.active = true ↔ i = 0)) ∧
       (∃ im, (selectTab 0
            (createTabElements (resolveSettings config))).imageItems[i]? = some im ∧
          im.display = if i = 0 then "block" else "none") ∧
       (∃ b, (selectTab 0
            (createTabElements (resolveSettings config))).buttonItems[i]? = some b ∧
          b.display = if i = 0 then "inline-block" else "none") ∧
       ((resolveSettings config).debug = true →
         ∃ d, (selectTab 0
            (createTabElements (resolveSettings config))).debugItems[i]? = some d ∧
           d.display = if i = 0 then "block" else "none"))) ∧
    ((resolveSettings config).tabs.length = 0 →
      selectTab 0 (createTabElements (resolveSettings config)) =
        createTabElements (resolveSettings config)) := by
  refine ⟨rfl, fun i hi => ?_, fun h => selectTab_empty_noop _ h⟩
  have hcast : ((i : Int) = (0 : Int)) ↔ i = 0 := by
    constructor <;> intro h <;> omega
  obtain ⟨⟨t, ht, hta⟩, ⟨im, him, hima⟩, ⟨b, hb, hba⟩, hdbg⟩ :=
    selectTab_state (resolveSettings config) 0 i hi
  refine ⟨⟨t, ht, by rw [hta, hcast]⟩, ⟨im, him, by rw [hima]; by_cases h : i = 0 <;> simp [h, hcast]⟩,
    ⟨b, hb, by rw [hba]; by_cases h : i = 0 <;> simp [h, hcast]⟩, fun hd => ?_⟩
  obtain ⟨d, hdd, hda⟩ := hdbg hd
  exact ⟨d, hdd, by rw [hda]; by_cases h : i = 0 <;> simp [h, hcast]⟩

/-- Witness for C8 on a one-tab debug configuration: tab 0 ends active. -/
theorem claim8_witness :
    (createVerticalTabs true
        { container := "#x", position := some "left"
          tabs := [{ title := "T", text := "X", image := "i.png", button := none }]
          debug := some true } =
      (some (selectTab 0 (createTabElements (resolveSettings
        { container := "#x", position := some "left"
          tabs := [{ title := "T", text := "X", image := "i.png", button := none }]
          debug := some true }))), [])) ∧
    (∃ t, (selectTab 0 (createTabElements (resolveSettings
        { container := "#x", position := some "left"
          tabs := [{ title := "T", text := "X", image := "i.png", button := none }]
          debug := some true }))).tabItems[0]? = some t ∧
      (t.active = true ↔ (0 : Nat) = 0)) :=
  ⟨(claim8_initial_selection
      { container := "#x", position := some "left"
        tabs := [{ title := "T", text := "X", image := "i.png", button := none }]
        debug := some true }).1,
   ((claim8_initial_selection
      { container := "#x", position := some "left"
        tabs := [{ title := "T", text := "X", image := "i.png", button := none }]
        debug := some true }).2.1 0 (by decide)).1⟩

/-- C6: the delegated click listener ignores, silently (no console output and
no state change), clicks with no ancestor-or-self header, headers with a
missing or empty stored index, and headers whose stored index does not parse
as a number; otherwise it invokes `selectTab` with the parsed index. -/
theorem claim6_click_error_paths (e : TabElements) :
    onTabClick none e = (e, []) ∧
    (∀ t, t.datasetIndex = none → onTabClick (some t) e = (e, [])) ∧
    (∀ t, t.datasetIndex = some "" → onTabClick (some t) e = (e, [])) ∧
    (∀ t str, t.datasetIndex = some str → jsNumber str = none →
      onTabClick (some t) e = (e, [])) ∧
    (∀ t str n, t.datasetIndex = some str → str ≠ "" → jsNumber str = some n →
      onTabClick (some t) e = (selectTab n e, [])) := by
  refine ⟨rfl, fun t ht => ?_, fun t ht => ?_, fun t str ht hn => ?_,
    fun t str n ht hne hn => ?_⟩
  · simp [onTabClick, ht]
  · simp [onTabClick, ht]
  · by_cases hne : str = ""
    · simp [onTabClick, ht, hne]
    · simp [onTabClick, ht, hne, hn]
  · simp [onTabClick, ht, hne, hn]

/-- Witness for C6: an unparseable stored index is ignored on an empty widget;
a parseable one reaches `selectTab`. -/
theorem claim6_witness :
    onTabClick
        (some { datasetIndex := some "abc", active := false, title := "T", text := "X" })
        { wrapperDataPosition := "left", childOrder := ["tabs", "content"]
          tabItems := [], imageItems := [], buttonItems := [], debugItems := [] } =
      ({ wrapperDataPosition := "left", childOrder := ["tabs", "content"]
         tabItems := [], imageItems := [], buttonItems := [], debugItems := [] }, []) ∧
    onTabClick
        (some { datasetIndex := some "2", active := false, title := "T", text := "X" })
        { wrapperDataPosition := "left", childOrder := ["tabs", "content"]
          tabItems := [], imageItems := [], buttonItems := [], debugItems := [] } =
      (selectTab 2
        { wrapperDataPosition := "left", childOrder := ["tabs", "content"]
          tabItems := [], imageItems := [], buttonItems := [], debugItems := [] }, []) :=
  ⟨(claim6_click_error_paths _).2.2.2.1
      { datasetIndex := some "abc", active := false, title := "T", text := "X" }
      "abc" rfl (by decide),
   (claim6_click_error_paths _).2.2.2.2
      { datasetIndex := some "2", active := false, title := "T", text := "X" }
      "2" 2 rfl (by decide) (by decide)⟩

theorem cycleTabs_clicks (e : TabElements) (t : TabItem)
    (ht : e.tabItems[((jsFindActive e.tabItems + 1) %
        (e.tabItems.length : Int)).toNat]? = some t) :
    cycleTabs e = (onTabClick (some t) e).1 := by
  simp only [cycleTabs]
  rw [ht]

theorem cycleTabs_fresh (s : Settings) (h : 0 < s.tabs.length) :
    cycleTabs (createTabElements s) = selectTab 0 (createTabElements s) := by
  have hget : (createTabElements s).tabItems[(0 : Nat)]? =
      some (createTabItem (s.tabs.get ⟨0, h⟩) 0) := by
    rw [tabItems_createTabElements, List.getElem?_eq_getElem h]
    rfl
  have hidx : ((jsFindActive (createTabElements s).tabItems + 1) %
      ((createTabElements s).tabItems.length : Int)).toNat = 0 := by
    rw [jsFindActive_fresh]
    simp
  simp only [cycleTabs]
  rw [jsFindActive_fresh]
  simp only [neg_add_cancel, Int.zero_emod, Int.toNat_zero]
  rw [hget]
  simp only []
  rw [onTabClick_natIndex _ _ 0 rfl]
  simp

/-- C3: from the state where header `k` of the widget is active, an auto-cycle
tick finds `k` by the linear active scan and dispatches the click path (the
delegated listener via `tab.click()`, not the selection internals) on header
`(k+1) % N`, leaving that header active; when no header is active the scan
yields `-1` and the tick clicks header 0; and `N` consecutive ticks return the
widget to the state with header `k` active. -/
theorem claim3_cycle_advances (s : Settings) (k : Nat) (hk : k < s.tabs.length) :
    jsFindActive (selectTab (k : Int) (createTabElements s)).tabItems = (k : Int) ∧
    (∀ t, (selectTab (k : Int) (createTabElements s)).tabItems[((jsFindActive
          (selectTab (k : Int) (createTabElements s)).tabItems + 1) %
          ((selectTab (k : Int) (createTabElements s)).tabItems.length : Int)).toNat]? =
        some t →
      cycleTabs (selectTab (k : Int) (createTabElements s)) =
        (onTabClick (some t) (selectTab (k : Int) (createTabElements s))).1) ∧
    cycleTabs (selectTab (k : Int) (createTabElements s)) =
      selectTab (((k + 1) % s.tabs.length : Nat) : Int) (createTabElements s) ∧
    (jsFindActive (createTabElements s).tabItems = -1 ∧
      cycleTabs (createTabElements s) = selectTab 0 (createTabElements s)) ∧
    cycleTabs^[s.tabs.length] (selectTab (k : Int) (createTabElements s)) =
      selectTab (k : Int) (createTabElements s) := by
  have hpos : 0 < s.tabs.length := by omega
  refine ⟨?_, fun t ht => cycleTabs_clicks _ t ht, cycleTabs_selectTab s k hk,
    ⟨jsFindActive_fresh s, cycleTabs_fresh s hpos⟩, ?_⟩
  · rw [jsFindActive_selectTab, if_pos]
    refine ⟨by omega, ?_⟩
    rw [length_tabItems_createTabElements]
    omega
  · rw [cycleTabs_iterate s k hk s.tabs.length]
    congr 2
    rw [Nat.add_mod_right, Nat.mod_eq_of_lt hk]

/-- Witness for C3 on a three-tab widget starting from active index 1. -/
def sampleThreeTabs : Settings :=
  { container := "#x", position := "left"
    tabs := [{ title := "A", text := "a", image := "a.png", button := none },
             { title := "B", text := "b", image := "b.png", button := none },
             { title := "C", text := "c", image := "c.png", button := none }]
    debug := false }

/-- Witness for C3: the tick from active index 1 of three tabs selects index
`(1+1) % 3 = 2`, and three ticks return to index 1. -/
theorem claim3_witness :
    cycleTabs (selectTab ((1 : Nat) : Int) (createTabElements sampleThreeTabs)) =
      selectTab (((1 + 1) % sampleThreeTabs.tabs.length : Nat) : Int)
        (createTabElements sampleThreeTabs) ∧
    cycleTabs^[sampleThreeTabs.tabs.length]
        (selectTab ((1 : Nat) : Int) (createTabElements sampleThreeTabs)) =
      selectTab ((1 : Nat) : Int) (createTabElements sampleThreeTabs) :=
  ⟨(claim3_cycle_advances sampleThreeTabs 1 (by decide)).2.2.1,
   (claim3_cycle_advances sampleThreeTabs 1 (by decide)).2.2.2.2⟩

/-- Reachability invariant of one driver's timer state: either no repeating
timer is scheduled, or exactly one is, it runs at the driver's captured
interval, and its id is the one stored in `intervalId`. -/
def CycleInv (s : CycleState) : Prop :=
  s.timers = [] ∨
    ∃ i, s.intervalId = some i ∧ s.timers = [(i, s.intervalMs)]

theorem stepEvent_intervalMs (s : CycleState) (ev : CycleEvent) :
    (stepEvent s ev).intervalMs = s.intervalMs := by
  cases ev with
  | enter => rfl
  | leave =>
    simp only [stepEvent]
    by_cases h : s.intervalId = none <;> simp [h]
  | cancel => rfl

theorem stepEvent_inv (s : CycleState) (ev : CycleEvent) (hs : CycleInv s) :
    CycleInv (stepEvent s ev) := by
  cases ev with
  | enter =>
    left
    rcases hs with h | ⟨i, hid, ht⟩
    · simp [stepEvent, h, clearIntervalTimers]
      cases s.intervalId <;> rfl
    · simp [stepEvent, hid, ht, clearIntervalTimers]
  | leave =>
    by_cases h : s.intervalId = none
    · rcases hs with ht | ⟨i, hid, _⟩
      · right
        exact ⟨s.nextId, by simp [stepEvent, h], by simp [stepEvent, h, ht]⟩
      · rw [h] at hid
        exact absurd hid (by simp)
    · simpa [stepEvent, h] using hs
  | cancel =>
    rcases hs with h | ⟨i, hid, ht⟩
    · left
      simp only [stepEvent, h, clearIntervalTimers]
      cases s.intervalId <;> rfl
    · left
      simp [stepEvent, hid, ht, clearIntervalTimers]

theorem foldl_stepEvent_inv (evs : List CycleEvent) :
    ∀ s : CycleState, CycleInv s → CycleInv (evs.foldl stepEvent s) := by
  induction evs with
  | nil => intro s hs; exact hs
  | cons ev evs ih => intro s hs; exact ih _ (stepEvent_inv s ev hs)

theorem foldl_stepEvent_intervalMs (evs : List CycleEvent) :
    ∀ s : CycleState, (evs.foldl stepEvent s).intervalMs = s.intervalMs := by
  induction evs with
  | nil => intro s; rfl
  | cons ev evs ih =>
    intro s
    rw [List.foldl_cons, ih, stepEvent_intervalMs]

/-- C7: in the hover state machine, a pointer-enter clears the stored timer
and records that none is running; a pointer-leave schedules a fresh timer at
the captured interval only when none is recorded as running; and after any
event sequence from the start state at most one repeating timer is scheduled,
every scheduled one running at the driver's interval. -/
theorem claim7_at_most_one_timer (interval : Nat) (evs : List CycleEvent) :
    (evs.foldl stepEvent (autoCycleStart interval)).timers.length ≤ 1 ∧
    (∀ t ∈ (evs.foldl stepEvent (autoCycleStart interval)).timers,
      t.2 = interval) ∧
    (∀ st : CycleState, (stepEvent st .enter).intervalId = none ∧
      (stepEvent st .enter).timers = clearIntervalTimers st.intervalId st.timers) ∧
    (∀ st : CycleState, st.intervalId ≠ none → stepEvent st .leave = st) ∧
    (∀ st : CycleState, st.intervalId = none →
      (stepEvent st .leave).timers = st.timers ++ [(st.nextId, st.intervalMs)] ∧
      (stepEvent st .leave).intervalId = some st.nextId) := by
  have hinv : CycleInv (evs.foldl stepEvent (autoCycleStart interval)) :=
    foldl_stepEvent_inv evs (autoCycleStart interval)
      (Or.inr ⟨1, rfl, rfl⟩)
  have hms : (evs.foldl stepEvent (autoCycleStart interval)).intervalMs =
      interval := foldl_stepEvent_intervalMs evs (autoCycleStart interval)
  refine ⟨?_, ?_, fun st => ⟨rfl, rfl⟩, fun st h => by simp [stepEvent, h],
    fun st h => by simp [stepEvent, h]⟩
  · rcases hinv with h | ⟨i, _, ht⟩
    · simp [h]
    · simp [ht]
  · intro t htmem
    rcases hinv with h | ⟨i, _, ht⟩
    · rw [h] at htmem
      exact absurd htmem (by simp)
    · rw [ht] at htmem
      rw [List.mem_singleton] at htmem
      rw [htmem]
      exact hms

/-- Witness for C7: after enter–leave–enter–leave from a 3000 ms start, one
timer is scheduled; and a leave while a timer is recorded is a no-op. -/
theorem claim7_witness :
    (([CycleEvent.enter, CycleEvent.leave, CycleEvent.enter,
        CycleEvent.leave].foldl stepEvent (autoCycleStart 3000)).timers.length ≤ 1) ∧
    stepEvent
        { intervalId := some 7, timers := [(7, 3000)], nextId := 8
          intervalMs := 3000 } .leave =
      { intervalId := some 7, timers := [(7, 3000)], nextId := 8
        intervalMs := 3000 } :=
  ⟨(claim7_at_most_one_timer 3000
      [CycleEvent.enter, CycleEvent.leave, CycleEvent.enter, CycleEvent.leave]).1,
   (claim7_at_most_one_timer 3000 []).2.2.2.1
      { intervalId := some 7, timers := [(7, 3000)], nextId := 8
        intervalMs := 3000 } (by decide)⟩

/-- C9: invoking the returned cleanup function clears the scheduled timer but
leaves `intervalId` set, so the driver still believes a timer is running; a
later pointer-enter resets `intervalId` to none, after which a pointer-leave
schedules a fresh repeating timer at the same interval — auto-cycling resumes
despite the cancellation. -/
theorem claim9_cancel_not_permanent (interval : Nat) :
    (stepEvent (autoCycleStart interval) .cancel).timers = [] ∧
    (stepEvent (autoCycleStart interval) .cancel).intervalId = some 1 ∧
    (stepEvent (stepEvent (autoCycleStart interval) .cancel) .enter).intervalId =
      none ∧
    (stepEvent (stepEvent (stepEvent (autoCycleStart interval) .cancel) .enter)
        .leave).timers = [(2, interval)] ∧
    (stepEvent (stepEvent (stepEvent (autoCycleStart interval) .cancel) .enter)
        .leave).intervalId = some 2 := by
  refine ⟨?_, rfl, rfl, ?_, rfl⟩ <;>
    simp [autoCycleStart, stepEvent, clearIntervalTimers]
